import Mathlib

/-
Verification of the pull-request module (github3/pulls.py).

The module is shallowly embedded: JSON payloads become structures of
Option-typed fields (a key bound to JSON null is modelled like an absent
key, except where a claim distinguishes them), the constructors become
total Lean functions into Except (construction can raise), and the
mutating methods become pure functions that take the would-be server
response as an argument and also return the list of HTTP requests they
would issue, so that "no network call is made" is a provable statement.
Parts of the repository that the module imports but that are not part of
the source at hand (the transport helpers, the auth decorator) are
modelled from the specification; each such definition is marked.
-/

namespace Github3

/-! ## Python string machinery -/

/-- Python whitespace for the regex class backslash-s:
space, tab, newline, carriage return, vertical tab, form feed. -/
def pySpace (c : Char) : Bool :=
  c = ' ' || c = '\t' || c = '\n' || c = '\r' || c = Char.ofNat 11 || c = Char.ofNat 12

/-- A list of characters containing no Python whitespace
(what the regex token backslash-S-plus ranges over). -/
def noSpace (l : List Char) : Bool := l.all (fun c => !pySpace c)

/-- The character class of the host part of the issue-URL regex:
word characters, digits, hyphen, dot, colon. -/
def hostChar (c : Char) : Bool :=
  c.isAlpha || c.isDigit || c = '_' || c = '-' || c = '.' || c = ':'

/-- Python str.replace, scanning left to right and replacing every
non-overlapping occurrence of pat by rep.  The scan is written with a
fuel counter bounded by the length of the scanned list so that the
recursion is structural (every step consumes at least one character
when the pattern is non-empty; the constructor only ever replaces the
non-empty literal pulls). -/
def replaceAllAux (pat rep : List Char) : Nat → List Char → List Char
  | _, [] => []
  | 0, s => s
  | fuel + 1, c :: rest =>
    if pat ≠ [] ∧ pat.isPrefixOf (c :: rest) then
      rep ++ replaceAllAux pat rep fuel (List.drop pat.length (c :: rest))
    else
      c :: replaceAllAux pat rep fuel rest

/-- Python str.replace on character lists. -/
def replaceAll (pat rep s : List Char) : List Char :=
  replaceAllAux pat rep s.length s

/-- String version of replaceAll; Python spells it s.replace(pat, rep). -/
def strReplaceAll (pat rep s : String) : String :=
  ⟨replaceAll pat.data rep.data s.data⟩

/-- All results of replacing exactly ONE occurrence of pat by rep in s
(one list entry per occurrence position).  This is the formalisation of
the claim wording "replaced in exactly one place"; it is compared with
what the code does, which is replaceAll. -/
def oneReplacements (pat rep : List Char) : List Char → List (List Char)
  | [] => []
  | c :: rest =>
    (if pat.isPrefixOf (c :: rest) then [rep ++ List.drop pat.length (c :: rest)] else []) ++
      (oneReplacements pat rep rest).map (fun t => c :: t)

/-! ## The issue-URL regex

Embedding of the Python expression
  match(r_https colon slash slash [word dash dot colon]+ /(S+)/(S+)/(issues|pull)?/digit+, url)
from the constructor.  re.match anchors at the start only; the two
capture groups are greedy, and the regex engine prefers the longest
first group, then the longest second group, backtracking as needed.
A group of the form S-plus must be followed by a literal slash, so the
candidate splits are exactly the slash positions, tried longest-first. -/

/-- Does the list start with a literal slash followed by a decimal digit
(the tail of the pattern: slash digit-plus, with re.match allowing any
trailing characters after the digits)? -/
def startsSlashDigit : List Char → Bool
  | '/' :: c :: _ => c.isDigit
  | _ => false

/-- After the second capture group and its slash, the pattern allows an
optional segment issues or pull, then a slash and at least one digit. -/
def afterG2ok (post : List Char) : Bool :=
  (("issues".data).isPrefixOf post && startsSlashDigit (post.drop 6)) ||
  (("pull".data).isPrefixOf post && startsSlashDigit (post.drop 4)) ||
  startsSlashDigit post

/-- All decompositions l = pre ++ slash ++ post, in order of increasing
pre length. -/
def slashSplitsAsc : List Char → List (List Char × List Char)
  | [] => []
  | c :: rest =>
    (if c = '/' then [(([] : List Char), rest)] else []) ++
      (slashSplitsAsc rest).map (fun p => (c :: p.1, p.2))

/-- First result of f over a list, scanning left to right. -/
def findFirst {α β : Type} (f : α → Option β) : List α → Option β
  | [] => none
  | a :: rest =>
    match f a with
    | some b => some b
    | none => findFirst f rest

/-- The second capture group: the longest non-empty whitespace-free
prefix of r that is followed by a slash and a valid pattern tail. -/
def g2find (r : List Char) : Option (List Char) :=
  findFirst
    (fun p => if !p.1.isEmpty && noSpace p.1 && afterG2ok p.2 then some p.1 else none)
    (slashSplitsAsc r).reverse

/-- Both capture groups: the longest non-empty whitespace-free first
group (followed by a slash) under which the rest of the pattern still
matches, then the longest second group. -/
def g1g2find (r : List Char) : Option (List Char × List Char) :=
  findFirst
    (fun p =>
      if !p.1.isEmpty && noSpace p.1 then
        (g2find p.2).map (fun g2 => (p.1, g2))
      else none)
    (slashSplitsAsc r).reverse

/-- The whole regex: literal https colon slash slash, then a non-empty
maximal run of host characters (the class excludes the slash, so no
backtracking can shorten it), then slash, then the two capture groups.
Returns the pair of captured groups on a match. -/
def issueUrlMatch (s : String) : Option (String × String) :=
  let l := s.data
  if ("https://".data).isPrefixOf l then
    let rest := l.drop 8
    let host := rest.takeWhile hostChar
    if host.isEmpty then none
    else
      match rest.drop host.length with
      | '/' :: r => (g1g2find r).map (fun p => (⟨p.1⟩, ⟨p.2⟩))
      | _ => none
  else none

/-! ## Data model

JSON payloads become structures of Option-typed fields; a missing key is
none.  A key bound to JSON null behaves like a missing key for every
field the claims touch (both are falsy for the guarded nested objects,
and dict.get returns None for an absent key), so null is modelled as
absence.  Nested user dicts are kept opaque as association lists. -/

/-- An exception a constructor or method of the module can raise. -/
inductive PyError where
  | attributeError
  | typeError
  | nameError
  | keyError
  | authorizationError
  | transportError
deriving DecidableEq, Repr

/-- The transport session; only its authentication state matters here. -/
structure Session where
  authenticated : Bool
deriving DecidableEq, Repr

/-- A constructed User object, wrapping its raw payload dict. -/
structure User where
  payload : List (String × String)
deriving DecidableEq, Repr

/-- The value of the user or assignee attribute of a pull request.  The
source stores the raw value and wraps it only when it is truthy, so a
falsy empty dict is kept as is and an absent key stays None. -/
inductive MaybeUser where
  | absent
  | emptyDict
  | user (u : User)
deriving DecidableEq, Repr

/-- A parsed RFC6570 template wrapper. -/
structure URITemplate where
  template : String
deriving DecidableEq, Repr

/-- The reconstructed links dictionary: it always holds exactly the
five keys written in the constructor. -/
structure Links where
  self_link : String
  comments : String
  issue : String
  html : Option String
  review_comments : String
deriving DecidableEq, Repr

/-- The owner sub-dict of the repo sub-dict of a destination payload. -/
structure OwnerPayload where
  login : Option String
deriving DecidableEq, Repr

/-- The repo sub-dict of a destination payload. -/
structure RepoPayload where
  name : Option String
  owner : Option OwnerPayload
deriving DecidableEq, Repr

/-- The base or head sub-dict of a pull-request payload. -/
structure DestPayload where
  ref : Option String
  label : Option String
  user : Option (List (String × String))
  sha : Option String
  repo : Option RepoPayload
deriving DecidableEq, Repr

/-- The constructed PullDestination object. -/
structure PullDestination where
  direction : String
  ref : Option String
  label : Option String
  user : Option User
  sha : Option String
  repo : Option String × Option String
deriving DecidableEq, Repr

/-- A pull-request JSON payload: every key the constructor reads. -/
structure PullPayload where
  url : Option String
  base : Option DestPayload
  body : Option String
  body_html : Option String
  body_text : Option String
  additions : Option Int
  deletions : Option Int
  closed_at : Option String
  comments : Option Int
  comments_url : Option String
  commits : Option Int
  commits_url : Option String
  created_at : Option String
  diff_url : Option String
  head : Option DestPayload
  html_url : Option String
  id : Option Int
  labels : Option (List (List (String × String)))
  labels_url : Option String
  issue_url : Option String
  statuses_url : Option String
  merged_at : Option String
  mergeable : Option Bool
  mergeable_state : Option String
  merge_commit_sha : Option String
  merged_by : Option (List (String × String))
  number : Option Int
  patch_url : Option String
  review_comment_url : Option String
  review_comments : Option Int
  review_comments_url : Option String
  state : Option String
  title : Option String
  updated_at : Option String
  user : Option (List (String × String))
  assignee : Option (List (String × String))
deriving DecidableEq, Repr

/-- The constructed PullRequest object: every attribute the constructor
sets.  The labels attribute has an uninhabited element type because the
Label name is never imported in the module, so no label value can ever
be constructed: a successful construction always stores the empty list. -/
structure PullRequest where
  api : String
  base : PullDestination
  head : PullDestination
  body : String
  body_html : String
  body_text : String
  additions : Option Int
  deletions : Option Int
  closed_at : Option String
  comments : Option Int
  comments_url : Option String
  commits : Option Int
  commits_url : Option String
  created_at : Option String
  diff_url : Option String
  html_url : Option String
  id : Option Int
  labels : List Empty
  labels_urlt : Option URITemplate
  issue_url : Option String
  statuses_url : Option String
  links : Links
  merged_at : Option String
  mergeable : Bool
  mergeable_state : String
  merge_commit_sha : String
  merged_by : Option User
  number : Option Int
  patch_url : Option String
  review_comment_url : Option URITemplate
  review_comments : Option Int
  review_comments_url : Option String
  repository : String × String
  state : Option String
  title : Option String
  updated_at : Option String
  user : MaybeUser
  assignee : MaybeUser
  session : Option Session
deriving DecidableEq

/-! ## Constructors -/

/-- Wrap a nested user payload when truthy, else None: the pattern
  value = d.get(key); attr = User(value) if value else None.
A falsy value (absent key, null, or the empty dict) yields None. -/
def wrapUser (d : Option (List (String × String))) : Option User :=
  match d with
  | some (x :: xs) => some ⟨x :: xs⟩
  | _ => none

/-- The two-step pattern of the user and assignee attributes:
  attr = pull.get(key); if attr: attr = User(attr, self).
A truthy dict is wrapped; a falsy present dict is left as the raw empty
dict; an absent key stays None. -/
def wrapUserKeep (d : Option (List (String × String))) : MaybeUser :=
  match d with
  | some (x :: xs) => .user ⟨x :: xs⟩
  | some [] => .emptyDict
  | none => .absent

/-- Modelled from the spec: timestamps are parsed from an ISO-8601-like
string into a structured date-time value, or null if absent.  The parser
itself lives outside this module (models strptime helper); the parsed
value is represented by the accepted string. -/
def strptime (s : Option String) : Option String := s

/-- The pattern  URITemplate(u) if u else None : a truthy (non-empty)
template string is wrapped, anything falsy yields None. -/
def templateOf (s : Option String) : Option URITemplate :=
  match s with
  | some u => if u = "" then none else some ⟨u⟩
  | none => none

/-- PullDestination construction.  Passing None for the dict raises
AttributeError at the first dest.get call; a repo dict without an owner
key raises KeyError at dest[repo][owner]. -/
def PullDestination.init (dest : Option DestPayload) (direction : String) :
    Except PyError PullDestination :=
  match dest with
  | none => .error .attributeError
  | some d =>
    match d.repo with
    | none =>
      .ok { direction := direction, ref := d.ref, label := d.label,
            user := wrapUser d.user, sha := d.sha, repo := (some "", some "") }
    | some r =>
      match r.owner with
      | none => .error .keyError
      | some o =>
        .ok { direction := direction, ref := d.ref, label := d.label,
              user := wrapUser d.user, sha := d.sha, repo := (o.login, r.name) }

/-- PullRequest construction, in source order of the failure points:
the base destination (an absent base dict raises), then the head
destination, then the labels comprehension (an absent labels key raises
TypeError from iterating None, a non-empty labels list raises NameError
because the Label name is never imported), then the issue-URL regex (an
absent issue URL raises TypeError inside re.match, a non-matching one
raises AttributeError on None.groups()). -/
def PullRequest.init (pull : PullPayload) (session : Option Session) :
    Except PyError PullRequest :=
  match PullDestination.init pull.base "Base" with
  | .error e => .error e
  | .ok base =>
  match PullDestination.init pull.head "Head" with
  | .error e => .error e
  | .ok head =>
  match pull.labels with
  | none => .error .typeError
  | some (_ :: _) => .error .nameError
  | some [] =>
  match pull.issue_url with
  | none => .error .typeError
  | some iu =>
  match issueUrlMatch iu with
  | none => .error .attributeError
  | some (own, rep) =>
    let api := pull.url.getD ""
    .ok {
      api := api,
      base := base,
      head := head,
      body := pull.body.getD "",
      body_html := pull.body_html.getD "",
      body_text := pull.body_text.getD "",
      additions := pull.additions,
      deletions := pull.deletions,
      closed_at := strptime pull.closed_at,
      comments := pull.comments,
      comments_url := pull.comments_url,
      commits := pull.commits,
      commits_url := pull.commits_url,
      created_at := strptime pull.created_at,
      diff_url := pull.diff_url,
      html_url := pull.html_url,
      id := pull.id,
      labels := [],
      labels_urlt := templateOf pull.labels_url,
      issue_url := pull.issue_url,
      statuses_url := pull.statuses_url,
      links := {
        self_link := api,
        comments := strReplaceAll "pulls" "issues" api ++ "/comments",
        issue := strReplaceAll "pulls" "issues" api,
        html := pull.html_url,
        review_comments := api ++ "/comments" },
      merged_at := strptime pull.merged_at,
      mergeable := pull.mergeable.getD false,
      mergeable_state := pull.mergeable_state.getD "",
      merge_commit_sha := pull.merge_commit_sha.getD "",
      merged_by := wrapUser pull.merged_by,
      number := pull.number,
      patch_url := pull.patch_url,
      review_comment_url := templateOf pull.review_comment_url,
      review_comments := pull.review_comments,
      review_comments_url := pull.review_comments_url,
      repository := (own, rep),
      state := pull.state,
      title := pull.title,
      updated_at := strptime pull.updated_at,
      user := wrapUserKeep pull.user,
      assignee := wrapUserKeep pull.assignee,
      session := session }

/-- A review-comment JSON payload: the keys read in this module (the
fields of the generic comment base class live outside the module). -/
structure ReviewCommentPayload where
  user : Option (List (String × String))
  original_position : Option Int
  path : Option String
  position : Option Int
  commit_id : Option String
  diff_hunk : Option String
  original_commit_id : Option String
deriving DecidableEq, Repr

/-- The constructed ReviewComment attributes set in this module. -/
structure ReviewComment where
  user : Option User
  original_position : Option Int
  path : Option String
  position : Int
  commit_id : Option String
  diff_hunk : Option String
  original_commit_id : Option String
deriving DecidableEq, Repr

/-- The Python expression  x or 0 : a truthy (non-zero) value is kept,
anything falsy (absent, null, or zero) yields 0. -/
def pyOrZero (x : Option Int) : Int :=
  match x with
  | some v => if v = 0 then 0 else v
  | none => 0

/-- ReviewComment construction (always succeeds on these fields). -/
def ReviewComment.init (comment : ReviewCommentPayload) : ReviewComment :=
  { user := wrapUser comment.user,
    original_position := comment.original_position,
    path := comment.path,
    position := pyOrZero comment.position,
    commit_id := comment.commit_id,
    diff_hunk := comment.diff_hunk,
    original_commit_id := comment.original_commit_id }

/-! ## Methods

Each method is a pure function of the object, its arguments and the
would-be server response; it returns the list of HTTP requests it
would issue alongside its result, so that an absence of network calls
is a provable statement. -/

/-- One HTTP request the module would issue. -/
structure Request where
  method : String
  url : String
  payload : Option (List (String × String))
deriving DecidableEq, Repr

/-- Modelled from the spec: the requires-auth decorator of the mutating
methods makes an unauthenticated call fail fast with an authorization
error before any request is attempted. -/
def PullRequest.authenticated (pr : PullRequest) : Bool :=
  match pr.session with
  | some s => s.authenticated
  | none => false

/-- Modelled from the spec: the URL builder joins the base URL and a
suffix with a slash. -/
def buildUrl (base suffixPart : String) : String :=
  base ++ "/" ++ suffixPart

/-- Modelled from the spec: the transport boolean helper interprets the
success status as true and the not-found status as false; any other
status is a transport error. -/
def boolean (status trueCode falseCode : Nat) : Except PyError Bool :=
  if status = trueCode then .ok true
  else if status = falseCode then .ok false
  else .error .transportError

/-- Modelled from the spec: the remove-none transport helper drops the
keys whose value is None from the payload dict, so omitted fields are
excluded from the submitted payload entirely. -/
def removeNone (l : List (String × Option String)) : List (String × String) :=
  l.filterMap (fun p => p.2.map (fun v => (p.1, v)))

/-- The payload dict built by update:
  data = (title, body, state) with the None entries removed. -/
def updateData (title body st : Option String) : List (String × String) :=
  removeNone [("title", title), ("body", body), ("state", st)]

/-- PullRequest.update.  The server argument is the decoded response
body of the PATCH: none stands for a missing, non-200 or falsy (empty)
body, in which case nothing changes and the method reports False; a
truthy body re-runs construction on it (which can itself raise) and the
method reports True. -/
def PullRequest.update (pr : PullRequest) (title body st : Option String)
    (server : Option PullPayload) :
    List Request × Except PyError (Bool × PullRequest) :=
  if pr.authenticated then
    let data := updateData title body st
    if data.isEmpty then ([], .ok (false, pr))
    else
      let req : Request := ⟨"PATCH", pr.api, some data⟩
      match server with
      | none => ([req], .ok (false, pr))
      | some payload =>
        match PullRequest.init payload pr.session with
        | .ok pr2 => ([req], .ok (true, pr2))
        | .error e => ([req], .error e)
  else ([], .error .authorizationError)

/-- PullRequest.close: update(self.title, self.body, closed). -/
def PullRequest.close (pr : PullRequest) (server : Option PullPayload) :
    List Request × Except PyError (Bool × PullRequest) :=
  if pr.authenticated then
    pr.update pr.title (some pr.body) (some "closed") server
  else ([], .error .authorizationError)

/-- PullRequest.reopen: update(self.title, self.body, open). -/
def PullRequest.reopen (pr : PullRequest) (server : Option PullPayload) :
    List Request × Except PyError (Bool × PullRequest) :=
  if pr.authenticated then
    pr.update pr.title (some pr.body) (some "open") server
  else ([], .error .authorizationError)

/-- The decoded body of a merge response carrying its two keys. -/
structure MergeBody where
  sha : String
  merged : Bool
deriving DecidableEq, Repr

/-- PullRequest.merge.  A truthy commit message is sent as the request
payload.  The server argument is the decoded 200 response body; none
stands for a missing or non-200 body, in which case the subscript on
None raises TypeError.  On a body, only the merge-commit sha attribute
is updated and the merged flag of the body is returned. -/
def PullRequest.merge (pr : PullRequest) (commit_message : String)
    (server : Option MergeBody) :
    List Request × Except PyError (Bool × PullRequest) :=
  if pr.authenticated then
    let data := if commit_message = "" then none
                else some [("commit_message", commit_message)]
    let req : Request := ⟨"PUT", buildUrl pr.api "merge", data⟩
    match server with
    | none => ([req], .error .typeError)
    | some b => ([req], .ok (b.merged, { pr with merge_commit_sha := b.sha }))
  else ([], .error .authorizationError)

/-- PullRequest.is_merged: a GET on the merge sub-resource, interpreted
through the boolean helper with 204 as true and 404 as false.  The
method is not auth-guarded and never touches the object state. -/
def PullRequest.is_merged (pr : PullRequest) (status : Nat) :
    List Request × Except PyError Bool :=
  ([⟨"GET", buildUrl pr.api "merge", none⟩], boolean status 204 404)

/-! ## Concrete inputs used by the witnesses and counterexamples -/

/-- A destination payload with every key absent (construction of a
PullDestination from it succeeds). -/
def emptyDestPayload : DestPayload := ⟨none, none, none, none, none⟩

/-- A pull-request payload with every key absent. -/
def emptyPayload : PullPayload :=
  ⟨none, none, none, none, none, none, none, none, none, none,
   none, none, none, none, none, none, none, none, none, none,
   none, none, none, none, none, none, none, none, none, none,
   none, none, none, none, none, none⟩

/-- A well-formed pull-request payload: construction succeeds on it. -/
def exPayload : PullPayload :=
  { emptyPayload with
    url := some "https://api.github.com/repos/octocat/Hello-World/pulls/1347",
    base := some emptyDestPayload,
    head := some emptyDestPayload,
    labels := some [],
    issue_url := some "https://api.github.com/repos/octocat/Hello-World/issues/1347",
    html_url := some "https://github.com/octocat/Hello-World/pull/1347",
    title := some "A title",
    body := some "A body" }

/-- The accepted payload refuting the one-place-replacement claim: its
canonical API URL contains the substring pulls twice, once as the login
of the owner and once as the path segment. -/
def exC1 : PullPayload :=
  { emptyPayload with
    url := some "https://api.github.com/repos/pulls/repo/pulls/1",
    base := some emptyDestPayload,
    head := some emptyDestPayload,
    labels := some [],
    issue_url := some "https://api.github.com/repos/pulls/repo/issues/1" }

/-- An otherwise well-formed payload whose labels key is absent. -/
def exNoLabels : PullPayload := { exPayload with labels := none }

/-- An otherwise well-formed payload with one label in the list. -/
def exOneLabel : PullPayload :=
  { exPayload with labels := some [[("name", "bug")]] }

/-- An otherwise well-formed payload whose base key is absent. -/
def exNoBase : PullPayload := { exPayload with base := none }

/-- An otherwise well-formed payload whose head key is absent. -/
def exNoHead : PullPayload := { exPayload with head := none }

/-- An otherwise well-formed payload whose issue-URL key is absent. -/
def exNoIssueUrl : PullPayload := { exPayload with issue_url := none }

/-- An otherwise well-formed payload whose issue URL does not match the
URL-shape pattern (the scheme is http, not https). -/
def exBadIssueUrl : PullPayload :=
  { exPayload with
    issue_url := some "http://github.com/octocat/Hello-World/issues/1347" }

/-- A review-comment payload whose position key is absent. -/
def exRC : ReviewCommentPayload :=
  ⟨some [("login", "octocat")], some 4, some "file.py", none,
   some "abc", some "hunk", some "def"⟩

/-- A default PullRequest value, used only to give the type an
Inhabited instance for the extraction helper below. -/
def defaultPR : PullRequest :=
  { api := "",
    base := ⟨"Base", none, none, none, none, (some "", some "")⟩,
    head := ⟨"Head", none, none, none, none, (some "", some "")⟩,
    body := "", body_html := "", body_text := "",
    additions := none, deletions := none, closed_at := none,
    comments := none, comments_url := none, commits := none,
    commits_url := none, created_at := none, diff_url := none,
    html_url := none, id := none, labels := [], labels_urlt := none,
    issue_url := none, statuses_url := none,
    links := ⟨"", "", "", none, ""⟩,
    merged_at := none, mergeable := false, mergeable_state := "",
    merge_commit_sha := "", merged_by := none, number := none,
    patch_url := none, review_comment_url := none,
    review_comments := none, review_comments_url := none,
    repository := ("", ""), state := none, title := none,
    updated_at := none, user := .absent, assignee := .absent,
    session := none }

instance : Inhabited PullRequest := ⟨defaultPR⟩

/-- Extract the object of a successful construction. -/
def prOf (e : Except PyError PullRequest) : PullRequest :=
  match e with
  | .ok r => r
  | .error _ => default

/-- An authenticated session. -/
def authSession : Session := ⟨true⟩

/-! ## Helper lemmas -/

/-- Characterisation of a successful construction: it forces the base
and head destinations to construct, the labels list to be present and
empty, and the issue URL to be present and to match the URL-shape
pattern; and it pins down the attributes the claims are about. -/
theorem init_ok_fields (p : PullPayload) (s : Option Session) (r : PullRequest)
    (h : PullRequest.init p s = .ok r) :
    p.labels = some [] ∧
    (∃ b, PullDestination.init p.base "Base" = .ok b ∧ r.base = b) ∧
    (∃ hd, PullDestination.init p.head "Head" = .ok hd ∧ r.head = hd) ∧
    (∃ iu own rep, p.issue_url = some iu ∧ issueUrlMatch iu = some (own, rep) ∧
        r.repository = (own, rep)) ∧
    r.api = p.url.getD "" ∧
    r.links.self_link = r.api ∧
    r.links.issue = strReplaceAll "pulls" "issues" r.api ∧
    r.links.comments = strReplaceAll "pulls" "issues" r.api ++ "/comments" ∧
    r.links.review_comments = r.api ++ "/comments" ∧
    r.user = wrapUserKeep p.user ∧
    r.assignee = wrapUserKeep p.assignee ∧
    r.merged_by = wrapUser p.merged_by ∧
    r.title = p.title := by
  unfold PullRequest.init at h
  split at h
  · exact absurd h (by simp)
  split at h
  · exact absurd h (by simp)
  split at h
  · exact absurd h (by simp)
  · exact absurd h (by simp)
  split at h
  · exact absurd h (by simp)
  split at h
  · exact absurd h (by simp)
  rename_i xb base hbase xh head hhead xl hlabels xi iu hiu xm own rep hmatch
  injection h with h
  subst h
  exact ⟨hlabels, ⟨base, hbase, rfl⟩, ⟨head, hhead, rfl⟩,
    ⟨iu, own, rep, hiu, hmatch, rfl⟩, rfl, rfl, rfl, rfl, rfl, rfl, rfl, rfl, rfl⟩

/-- The well-formed example object, constructed with an authenticated
session. -/
def exPR : PullRequest := prOf (PullRequest.init exPayload (some authSession))

/-- The well-formed example object, constructed without a session. -/
def exPRnoauth : PullRequest := prOf (PullRequest.init exPayload none)

/-! ## Claims -/

/-- C1, counterexample: the constructor computes the issue link with
Python str.replace, which substitutes EVERY occurrence of the substring
pulls.  On the accepted payload exC1, whose API URL contains pulls
twice (an owner login and the path segment), the computed issue link is
not among the two strings obtainable by replacing pulls with issues in
exactly one place, refuting the claim as stated. -/
theorem C1_counterexample :
    (PullRequest.init exC1 none).map (fun r => r.links.issue)
        = .ok "https://api.github.com/repos/issues/repo/issues/1" ∧
    ((oneReplacements ("pulls".data) ("issues".data)
        ("https://api.github.com/repos/pulls/repo/pulls/1".data)).contains
        ("https://api.github.com/repos/issues/repo/issues/1".data)) = false ∧
    (oneReplacements ("pulls".data) ("issues".data)
        ("https://api.github.com/repos/pulls/repo/pulls/1".data)).length = 2 :=
  ⟨by rfl, by decide, by decide⟩

/-- C1 (amended): for every accepted pull-request payload, the derived
links satisfy: self is the canonical API URL, issue is the API URL with
every occurrence of the substring pulls replaced by issues (Python
str.replace semantics; on canonical URLs with a single occurrence this
is the single path-segment replacement), comments is that issue URL
joined with /comments, and review-comments is the API URL + /comments. -/
theorem C1_theorem (p : PullPayload) (s : Option Session) (r : PullRequest)
    (h : PullRequest.init p s = .ok r) :
    r.links.self_link = r.api ∧
    r.links.issue = strReplaceAll "pulls" "issues" r.api ∧
    r.links.comments = strReplaceAll "pulls" "issues" r.api ++ "/comments" ∧
    r.links.review_comments = r.api ++ "/comments" ∧
    r.api = p.url.getD "" := by
  obtain ⟨-, -, -, -, h5, h6, h7, h8, h9, -⟩ := init_ok_fields p s r h
  exact ⟨h6, h7, h8, h9, h5⟩

/-- C1, witness: the amended theorem applied to a concrete accepted
payload. -/
theorem C1_witness :
    (prOf (PullRequest.init exPayload none)).links.issue
      = strReplaceAll "pulls" "issues" (prOf (PullRequest.init exPayload none)).api :=
  (C1_theorem exPayload none (prOf (PullRequest.init exPayload none)) rfl).2.1

/-- C2: update excludes every None argument from the submitted payload
(the lookup of each key returns exactly the corresponding argument),
and an authenticated call with at least one field and a truthy response
body sends one PATCH request, fully reconstructs the object from the
body, and returns True. -/
theorem C2_theorem :
    (∀ t b s, (updateData t b s).lookup "title" = t ∧
      (updateData t b s).lookup "body" = b ∧
      (updateData t b s).lookup "state" = s) ∧
    (∀ (pr : PullRequest) t b s payload pr2,
      pr.authenticated = true →
      updateData t b s ≠ [] →
      PullRequest.init payload pr.session = .ok pr2 →
      pr.update t b s (some payload)
        = ([⟨"PATCH", pr.api, some (updateData t b s)⟩], .ok (true, pr2))) := by
  constructor
  · intro t b s
    cases t <;> cases b <;> cases s <;> exact ⟨rfl, rfl, rfl⟩
  · intro pr t b s payload pr2 h1 h2 h3
    have hde : (updateData t b s).isEmpty = false := by
      cases hd : updateData t b s with
      | nil => exact absurd hd h2
      | cons a l => rfl
    simp [PullRequest.update, h1, hde, h3]

/-- C2, witness: the update theorem applied at a concrete object,
argument set and response payload. -/
theorem C2_witness :
    exPR.update (some "Other") none none (some exPayload)
      = ([⟨"PATCH", exPR.api, some (updateData (some "Other") none none)⟩],
         .ok (true, exPR)) :=
  C2_theorem.2 exPR (some "Other") none none exPayload exPR rfl (by decide) rfl

/-- C3: an authenticated update with all three arguments None issues no
request, leaves the object unchanged and returns False. -/
theorem C3_theorem (pr : PullRequest) (server : Option PullPayload)
    (h : pr.authenticated = true) :
    pr.update none none none server = ([], .ok (false, pr)) := by
  simp [PullRequest.update, h, updateData, removeNone]

/-- C3, witness: the no-op update at a concrete object. -/
theorem C3_witness :
    exPR.update none none none none = ([], .ok (false, exPR)) :=
  C3_theorem exPR none rfl

/-- C4: an authenticated merge against a 200 body carrying sha and
merged issues one PUT on the merge sub-resource, stores the sha of the
body in the merge-commit-sha attribute while leaving every other
attribute unchanged, and returns the merged flag of the body. -/
theorem C4_theorem (pr : PullRequest) (msg : String) (b : MergeBody)
    (h : pr.authenticated = true) :
    pr.merge msg (some b)
      = ([⟨"PUT", buildUrl pr.api "merge",
            if msg = "" then none else some [("commit_message", msg)]⟩],
         .ok (b.merged, { pr with merge_commit_sha := b.sha })) := by
  simp [PullRequest.merge, h]

/-- C4, witness: the concrete example of the specification: a body with
sha abc123 and merged false yields a stored sha abc123 and the return
value False. -/
theorem C4_witness :
    exPR.merge "release" (some ⟨"abc123", false⟩)
      = ([⟨"PUT", buildUrl exPR.api "merge", some [("commit_message", "release")]⟩],
         .ok (false, { exPR with merge_commit_sha := "abc123" })) := by
  have h := C4_theorem exPR "release" ⟨"abc123", false⟩ rfl
  simpa using h

/-- C5: is-merged probes the merge sub-resource with a GET and maps a
404 status to False, a 204 status to True, and any other status such as
500 to a transport error; being a pure function of the object it
mutates no attribute. -/
theorem C5_theorem (pr : PullRequest) :
    pr.is_merged 404 = ([⟨"GET", buildUrl pr.api "merge", none⟩], .ok false) ∧
    pr.is_merged 204 = ([⟨"GET", buildUrl pr.api "merge", none⟩], .ok true) ∧
    pr.is_merged 500 = ([⟨"GET", buildUrl pr.api "merge", none⟩],
        .error .transportError) :=
  ⟨rfl, rfl, rfl⟩

/-- C6: the owner-repository pair is extracted from the issue URL by
the fixed URL-shape pattern: a successful construction stores exactly
the capture groups of the match; a payload whose issue URL matches (and
whose other components are valid) constructs successfully with those
groups; an absent issue URL and a non-matching issue URL both make
construction fail with an error. -/
theorem C6_theorem :
    (∀ p s r, PullRequest.init p s = .ok r →
      ∃ iu own rep, p.issue_url = some iu ∧
        issueUrlMatch iu = some (own, rep) ∧ r.repository = (own, rep)) ∧
    (∀ p s b hd iu own rep,
      PullDestination.init p.base "Base" = .ok b →
      PullDestination.init p.head "Head" = .ok hd →
      p.labels = some [] →
      p.issue_url = some iu →
      issueUrlMatch iu = some (own, rep) →
      ∃ r, PullRequest.init p s = .ok r ∧ r.repository = (own, rep)) ∧
    (∀ p s, p.issue_url = none → ∃ e, PullRequest.init p s = .error e) ∧
    (∀ p s iu, p.issue_url = some iu → issueUrlMatch iu = none →
      ∃ e, PullRequest.init p s = .error e) := by
  refine ⟨?_, ?_, ?_, ?_⟩
  · intro p s r h
    exact (init_ok_fields p s r h).2.2.2.1
  · intro p s b hd iu own rep h1 h2 h3 h4 h5
    simp only [PullRequest.init, h1, h2, h3, h4, h5]
    exact ⟨_, rfl, rfl⟩
  · intro p s hnone
    cases hinit : PullRequest.init p s with
    | error e => exact ⟨e, rfl⟩
    | ok r =>
      obtain ⟨-, -, -, ⟨iu, own, rep, hiu, -, -⟩, -⟩ := init_ok_fields p s r hinit
      rw [hnone] at hiu
      exact absurd hiu (by simp)
  · intro p s iu hiu hm
    cases hinit : PullRequest.init p s with
    | error e => exact ⟨e, rfl⟩
    | ok r =>
      obtain ⟨-, -, -, ⟨iu2, own, rep, hiu2, hm2, -⟩, -⟩ := init_ok_fields p s r hinit
      rw [hiu] at hiu2
      injection hiu2 with hiu2
      subst hiu2
      rw [hm] at hm2
      exact absurd hm2 (by simp)

/-- C6, witness: the three behaviours at concrete payloads: a matching
issue URL, an absent issue URL, and one with an http scheme that the
pattern rejects. -/
theorem C6_witness :
    (∃ iu own rep, exPayload.issue_url = some iu ∧
        issueUrlMatch iu = some (own, rep) ∧
        (prOf (PullRequest.init exPayload none)).repository = (own, rep)) ∧
    (∃ e, PullRequest.init exNoIssueUrl none = .error e) ∧
    (∃ e, PullRequest.init exBadIssueUrl none = .error e) :=
  ⟨C6_theorem.1 exPayload none (prOf (PullRequest.init exPayload none)) rfl,
   C6_theorem.2.2.1 exNoIssueUrl none rfl,
   C6_theorem.2.2.2 exBadIssueUrl none _ rfl rfl⟩

/-- C7, counterexample: a payload whose base endpoint is absent makes
construction raise AttributeError instead of succeeding with an empty
endpoint attribute, refuting the claim as stated for base and head. -/
theorem C7_counterexample :
    PullRequest.init exNoBase none = .error .attributeError := rfl

/-- C7 (amended): on every accepted payload, an absent user, assignee
or merge actor yields None (never a partially constructed user); but a
payload with an absent or null base or head endpoint never constructs:
it raises instead. -/
theorem C7_theorem :
    (∀ p s r, PullRequest.init p s = .ok r →
      (p.user = none → r.user = .absent) ∧
      (p.assignee = none → r.assignee = .absent) ∧
      (p.merged_by = none → r.merged_by = none)) ∧
    (∀ p s, p.base = none → ∀ r, PullRequest.init p s ≠ .ok r) ∧
    (∀ p s, p.head = none → ∀ r, PullRequest.init p s ≠ .ok r) := by
  refine ⟨?_, ?_, ?_⟩
  · intro p s r h
    obtain ⟨-, -, -, -, -, -, -, -, -, hu, ha, hm, -⟩ :=
      init_ok_fields p s r h
    refine ⟨?_, ?_, ?_⟩
    · intro hn; rw [hu, hn]; rfl
    · intro hn; rw [ha, hn]; rfl
    · intro hn; rw [hm, hn]; rfl
  · intro p s hb r h
    obtain ⟨-, ⟨b, hbb, -⟩, -⟩ := init_ok_fields p s r h
    rw [hb] at hbb
    exact absurd hbb (by simp [PullDestination.init])
  · intro p s hh r h
    obtain ⟨-, -, ⟨hd, hhh, -⟩, -⟩ := init_ok_fields p s r h
    rw [hh] at hhh
    exact absurd hhh (by simp [PullDestination.init])

/-- C7, witness: the amended theorem applied to the concrete accepted
payload, whose merged-by and user keys are absent. -/
theorem C7_witness :
    (prOf (PullRequest.init exPayload none)).merged_by = none ∧
    (prOf (PullRequest.init exPayload none)).user = .absent :=
  ⟨(C7_theorem.1 exPayload none (prOf (PullRequest.init exPayload none)) rfl).2.2 rfl,
   (C7_theorem.1 exPayload none (prOf (PullRequest.init exPayload none)) rfl).1 rfl⟩

/-- C8: each mutating method invoked without an authenticated session
fails with the authorization error and an empty request list (so before
any network call, with the state untouched); with authentication, close
goes through the update path submitting state closed alongside the
current title and body, and reopen submits state open likewise. -/
theorem C8_theorem :
    (∀ (pr : PullRequest), pr.authenticated = false →
      (∀ t b s server, pr.update t b s server = ([], .error .authorizationError)) ∧
      (∀ server, pr.close server = ([], .error .authorizationError)) ∧
      (∀ server, pr.reopen server = ([], .error .authorizationError)) ∧
      (∀ msg mresp, pr.merge msg mresp = ([], .error .authorizationError))) ∧
    (∀ (pr : PullRequest) server, pr.authenticated = true →
      pr.close server = pr.update pr.title (some pr.body) (some "closed") server ∧
      pr.reopen server = pr.update pr.title (some pr.body) (some "open") server) := by
  constructor
  · intro pr h
    refine ⟨fun t b s server => ?_, fun server => ?_, fun server => ?_,
      fun msg mresp => ?_⟩
    · simp [PullRequest.update, h]
    · simp [PullRequest.close, h]
    · simp [PullRequest.reopen, h]
    · simp [PullRequest.merge, h]
  · intro pr server h
    exact ⟨by simp [PullRequest.close, h], by simp [PullRequest.reopen, h]⟩

/-- C8, witness: an unauthenticated concrete object is refused, and an
authenticated concrete close goes through the update path. -/
theorem C8_witness :
    exPRnoauth.update (some "T") none none none
        = ([], .error .authorizationError) ∧
    exPR.close none
        = exPR.update exPR.title (some exPR.body) (some "closed") none :=
  ⟨(C8_theorem.1 exPRnoauth rfl).1 (some "T") none none none,
   (C8_theorem.2 exPR none rfl).1⟩

/-- C9: a review-comment payload with an absent (or null) position
yields position 0, and the other fields set in this module round-trip
from the payload (the user dict wrapped exactly when truthy). -/
theorem C9_theorem (c : ReviewCommentPayload) (h : c.position = none) :
    (ReviewComment.init c).position = 0 ∧
    (ReviewComment.init c).user = wrapUser c.user ∧
    (ReviewComment.init c).original_position = c.original_position ∧
    (ReviewComment.init c).path = c.path ∧
    (ReviewComment.init c).commit_id = c.commit_id ∧
    (ReviewComment.init c).diff_hunk = c.diff_hunk ∧
    (ReviewComment.init c).original_commit_id = c.original_commit_id := by
  simp [ReviewComment.init, pyOrZero, h]

/-- C9, witness: the theorem applied to a concrete payload with the
position key absent. -/
theorem C9_witness : (ReviewComment.init exRC).position = 0 :=
  (C9_theorem exRC rfl).1

/-- C10: construction succeeds only when the labels key is present and
bound to the empty list; an absent labels key raises TypeError (from
iterating None) and a non-empty labels list raises NameError (the Label
name is never imported by the module). -/
theorem C10_theorem :
    (∀ p s r, PullRequest.init p s = .ok r → p.labels = some []) ∧
    PullRequest.init exNoLabels none = .error .typeError ∧
    PullRequest.init exOneLabel none = .error .nameError :=
  ⟨fun p s r h => (init_ok_fields p s r h).1, rfl, rfl⟩

/-- C10, witness: the theorem applied to the concrete accepted payload. -/
theorem C10_witness : exPayload.labels = some [] :=
  C10_theorem.1 exPayload none (prOf (PullRequest.init exPayload none)) rfl

end Github3
